import Mathlib

/-!
Verification development for the `python-garmin-connect` repository.

This file shallowly embeds the parts of the source that the specification
talks about: the pagination loop shared by `Garmin.get_activities_by_date`
and `Garmin.get_goals` (`service.py`), endpoint resolution via
`Garmin.get_url` together with `get_caller_name` (`utils.py`) and the
`API_URLS` registry (`constants.py`), the file-backed OAuth token store
(`repository.py`), the login and logout entry points of `Garmin`
(`service.py`), the privacy check of `Garmin.get_user_summary`, and the
bulk weigh-in deletion `Garmin.delete_weigh_ins`.
-/

namespace GarminConnect

/-! ## Pagination (`service.py`, `get_activities_by_date` / `get_goals`)

Both methods run the same `while True` loop: request a page at the current
`start` offset, and if the response is non-empty extend the accumulator and
advance `start` by `limit`, otherwise break.  The server is modelled by the
finite sequence of pages it returns, consumed one per request.  The result
records the accumulated items together with the offset carried by each
request that was issued. -/

/-- The `while True` loop of `Garmin.get_activities_by_date`
(service.py lines 867-875) and `Garmin.get_goals` (lines 931-939),
over the sequence of pages the server answers with.  Returns the
accumulated items and the list of `start` offsets at which requests
were issued.  An empty response breaks the loop after its request;
a non-empty response is appended and the offset advances by
`page_size` (the code's `start = start + limit`). -/
def paginateLoop (page_size : Nat) : List (List α) → Nat → List α × List Nat
  | [], _ => ([], [])
  | p :: rest, offset =>
    if p.isEmpty then
      ([], [offset])
    else
      let r := paginateLoop page_size rest (offset + page_size)
      (p ++ r.1, offset :: r.2)

/-- `Garmin.get_activities_by_date` paginates from offset 0 with page size 20
(service.py lines 850-852). -/
def get_activities_by_date (pages : List (List α)) : List α × List Nat :=
  paginateLoop 20 pages 0

/-- `Garmin.get_goals` paginates from its `start` argument (default 1) with
page size `limit` (default 30) (service.py lines 909-941). -/
def get_goals (pages : List (List α)) (start limit : Nat) : List α × List Nat :=
  paginateLoop limit pages start

theorem range_map_succ (f : Nat → β) (n : Nat) :
    (List.range (n + 1)).map f = f 0 :: (List.range n).map (f ∘ Nat.succ) := by
  rw [List.range_succ_eq_map, List.map_cons, List.map_map]

theorem arithProg (s d n : Nat) :
    (List.range (n + 1)).map (fun i => s + d * i)
      = s :: (List.range n).map (fun i => s + d + d * i) := by
  rw [range_map_succ (fun i => s + d * i) n]
  refine List.cons_eq_cons.mpr ⟨by simp, ?_⟩
  apply List.map_congr_left
  intro i _
  simp only [Function.comp_def, Nat.mul_succ]
  omega

/-- Claim C1: for every `page_size > 0` and every finite sequence of server
pages ending in an empty page (all earlier pages non-empty, of arbitrary
length — in particular shorter than `page_size`), the pagination loop
returns exactly the concatenation of the non-empty pages in their original
order and issues exactly one request per non-empty page plus one for the
terminating empty page, each request's offset advancing by exactly
`page_size` after every non-empty page regardless of that page's length;
it terminates only at the empty page. -/
theorem paginateLoop_spec (page_size start : Nat) (hps : 0 < page_size)
    (pages : List (List α)) (hne : ∀ p ∈ pages, p ≠ []) :
    paginateLoop page_size (pages ++ [[]]) start =
      (pages.flatten,
       (List.range (pages.length + 1)).map (fun i => start + page_size * i)) := by
  induction pages generalizing start with
  | nil =>
    simp [paginateLoop, List.range_succ]
  | cons p rest ih =>
    have hp : p ≠ [] := hne p (by simp)
    have hrest : ∀ q ∈ rest, q ≠ [] := fun q hq => hne q (by simp [hq])
    have hpe : p.isEmpty = false := by
      cases p with
      | nil => exact absurd rfl hp
      | cons a as => rfl
    simp only [List.cons_append, paginateLoop, hpe, Bool.false_eq_true,
      if_false, List.append_eq, List.flatten_cons, List.length_cons]
    rw [ih (start + page_size) hrest, arithProg start page_size (rest.length + 1)]

/-- Witness for C1: two non-empty pages (the second shorter than the page
size 3, so a short page does not terminate the loop), then the terminating
empty page.  The loop returns all five items in order and issues three
requests at offsets 0, 3, 6. -/
theorem paginateLoop_spec_witness :
    (0 : Nat) < 3 ∧ (∀ p ∈ [[1, 2, 3], [4, 5]], p ≠ ([] : List Nat)) ∧
    paginateLoop 3 ([[1, 2, 3], [4, 5]] ++ [[]]) 0 =
      ([1, 2, 3, 4, 5], [0, 3, 6]) := by
  refine ⟨by decide, by decide, ?_⟩
  have h := paginateLoop_spec 3 0 (by decide) [[1, 2, 3], [4, 5]] (by decide)
  simpa using h

/-! ## Endpoint resolution (`utils.py`, `constants.py`, `service.py`)

`Garmin.get_url` resolves a URL with
`API_URLS.get(get_caller_name(), "").format(**url_params)`:
the operation key is the *name of the calling function*, recovered by
`get_caller_name` from the interpreter call stack; an unknown key falls
back to the empty template; `str.format` raises `KeyError` for a
placeholder with no matching argument.  The call stack is embedded as a
list of frames (innermost first), each carrying the data
`get_caller_name` inspects: the module name, the class of a bound
`self` if present, and the code object's name. -/

/-- A stack frame as inspected by `get_caller_name`: the frame's module
(`inspect.getmodule`, `None` possible), the class of `self` when the frame
has a bound `self` local, and the code object's name. -/
structure Frame where
  moduleName : Option String
  selfClass : Option String
  codename : String
deriving DecidableEq

/-- The `CALLER_NAME_FORMATS` literal of `utils.py`
(`"module" | "class" | "method"`); `cls` stands for the `"class"` format. -/
inductive CallerNameFormat
  | module
  | cls
  | method
deriving DecidableEq

/-- `get_caller_name` from `src/utils.py` lines 9-38: returns `""` when the
skipped levels exceed the stack height, otherwise assembles
module/class/method name parts for the frame `skip` levels up (the
frame at index `skip`, the stack listing the current frame first) and
joins them with a dot.  The code name is omitted when it is the
top-level marker. -/
def get_caller_name (stack : List Frame) (return_format : CallerNameFormat)
    (skip : Nat) : String :=
  let start := 0 + skip
  if stack.length < start + 1 then ""
  else
    let parentframe := stack.getD start ⟨none, none, ""⟩
    let name1 : List String :=
      match return_format, parentframe.moduleName with
      | .module, some m => [m]
      | _, _ => []
    let name2 : List String :=
      if (return_format = .module ∨ return_format = .cls)
          ∧ parentframe.selfClass.isSome
      then name1 ++ [parentframe.selfClass.getD ""]
      else name1
    let name3 : List String :=
      if parentframe.codename = "<module>" then name2
      else name2 ++ [parentframe.codename]
    String.intercalate "." name3

/-- Errors that Python's `str.format` raises on the templates of
`API_URLS`: a placeholder whose name has no matching keyword argument
(`KeyError`), or malformed braces (`ValueError`). -/
inductive PyFormatError
  | keyError (key : String)
  | valueError
deriving DecidableEq

/-- Character-level embedding of Python's `str.format` restricted to the
features the `API_URLS` templates use: literal text, doubled-brace
escapes, and simple named fields.  The second argument holds
the reversed characters of the field name currently being read
(`none` when outside a field). -/
def formatAux (params : String → Option String) :
    List Char → Option (List Char) → Except PyFormatError (List Char)
  | [], none => .ok []
  | [], some _ => .error .valueError
  | '{' :: '{' :: rest, none =>
      (formatAux params rest none).map (fun r => '{' :: r)
  | '}' :: '}' :: rest, none =>
      (formatAux params rest none).map (fun r => '}' :: r)
  | '{' :: rest, none => formatAux params rest (some [])
  | '}' :: rest, some acc =>
      let field := String.mk acc.reverse
      match params field with
      | none => .error (.keyError field)
      | some v => (formatAux params rest none).map (fun r => v.data ++ r)
  | '}' :: _, none => .error .valueError
  | c :: rest, some acc => formatAux params rest (some (c :: acc))
  | c :: rest, none => (formatAux params rest none).map (fun r => c :: r)

/-- `template.format(**params)` on a URL template. -/
def formatTemplate (template : String) (params : String → Option String) :
    Except PyFormatError String :=
  (formatAux params template.data none).map String.mk

/-- The `API_URLS` registry of `src/constants.py` lines 8-50, verbatim. -/
def API_URLS : List (String × String) :=
  [("login", "/userprofile-service/userprofile/user-settings"),
   ("get_user_profile", "/userprofile-service/userprofile/user-settings"),
   ("get_devices", "/device-service/deviceregistration/devices"),
   ("get_device_settings",
     "/device-service/deviceservice/device-info/settings/{device_id}"),
   ("get_device_last_used", "/device-service/deviceservice/mylastused"),
   ("get_primary_training_device",
     "/web-gateway/device-info/primary-training-device"),
   ("get_device_solar_data", "/web-gateway/solar/{device_id}/{startdate}/{enddate}"),
   ("get_body_composition", "/weight-service/weight/dateRange"),
   ("add_weigh_in", "/weight-service/user-weight"),
   ("get_weigh_ins", "/weight-service/user-weight/weight/range/{startdate}/{enddate}"),
   ("get_daily_weigh_ins", "/weight-service/user-weight/weight/dayview/{cdate}"),
   ("delete_weigh_in",
     "/weight-service/user-weight/weight/{cdate}/byversion/{weight_pk}"),
   ("get_user_summary", "/usersummary-service/usersummary/daily/{display_name}"),
   ("get_max_metrics", "/metrics-service/metrics/maxmet/daily/{cdate}/{cdate}"),
   ("get_hydration_data", "/usersummary-service/usersummary/hydration/daily/{cdate}"),
   ("add_hydration_data", "usersummary-service/usersummary/hydration/log"),
   ("get_daily_steps", "/usersummary-service/stats/steps/daily/{start}/{end}"),
   ("get_personal_record", "/personalrecord-service/personalrecord/prs/{display_name}"),
   ("get_earned_badges", "/badge-service/badge/earned"),
   ("get_adhoc_challenges", "/adhocchallenge-service/adHocChallenge/historical"),
   ("get_badge_challenges", "/badgechallenge-service/badgeChallenge/completed"),
   ("get_available_badge_challenges",
     "/badgechallenge-service/badgeChallenge/available"),
   ("get_non_completed_badge_challenges",
     "/badgechallenge-service/badgeChallenge/non-completed"),
   ("get_inprogress_virtual_challenges",
     "/badgechallenge-service/virtualChallenge/inProgress"),
   ("get_activities", "/activitylist-service/activities/search/activities"),
   ("get_activities_by_date", "/activitylist-service/activities/search/activities"),
   ("get_gear_activities",
     "/activitylist-service/activities/{gear_uuid}/gear?start=0&limit=9999"),
   ("set_activity_name", "/activity-service/activity/{activity_id}"),
   ("change_activity_visibility", "/activity-service/activity/{activity_id}"),
   ("get_activity_splits", "/activity-service/activity/{activity_id}/splits"),
   ("get_activity_typed_splits",
     "/activity-service/activity/{activity_id}/typedsplits"),
   ("get_activity_split_summaries",
     "/activity-service/activity/{activity_id}/split_summaries"),
   ("get_activity_weather", "/activity-service/activity/{activity_id}/weather"),
   ("get_activity_hr_in_timezones",
     "/activity-service/activity/{activity_id}/hrTimeInZones"),
   ("get_activity", "/activity-service/activity/{activity_id}"),
   ("get_activity_details", "/activity-service/activity/{activity_id}/details"),
   ("get_activity_exercise_sets",
     "/activity-service/activity/{activity_id}/exerciseSets"),
   ("get_activity_types", "/activity-service/activity/activityTypes"),
   ("upload_activity", "/upload-service/upload")]

/-- `Garmin.get_url` (service.py lines 99-102):
`API_URLS.get(get_caller_name(), "").format(**url_params)`.  The stack is
the one live inside `get_caller_name`, whose defaults are
`return_format="method"`, `skip=2`. -/
def Garmin.get_url (stack : List Frame) (url_params : String → Option String) :
    Except PyFormatError String :=
  formatTemplate ((API_URLS.lookup (get_caller_name stack .method 2)).getD "")
    url_params

/-- The call stack inside `get_caller_name` when a `Garmin` method named
`caller` invokes `self.get_url(...)`: frame 0 is `get_caller_name`
itself, frame 1 is `Garmin.get_url`, frame 2 is the calling method. -/
def callStack (caller : String) : List Frame :=
  [⟨some "garmin_connect.utils", none, "get_caller_name"⟩,
   ⟨some "garmin_connect.service", some "Garmin", "get_url"⟩,
   ⟨some "garmin_connect.service", some "Garmin", caller⟩]

/-- Counterexample to claim C2: resolving an operation key that is not in
the registry does not fail with `ConfigurationError` (no such error exists
in the codebase); `API_URLS.get` falls back to the empty template and the
resolution succeeds with the empty path. -/
theorem get_url_unknown_key_no_error :
    Garmin.get_url (callStack "unknown_key") (fun _ => none) = Except.ok "" := by
  rfl

/-- Claim C2 as amended: endpoint resolution substitutes every named
placeholder of the key's URL template from the parameters and yields the
substituted path when the key is known and every placeholder is bound
(shown on the registry's `get_device_settings` template and on the spec's
`/x/{a}/{b}` example); if the operation key is not in the registry the
resolution does not fail but yields the empty string (the `.get(..., "")`
fallback); if a placeholder has no matching parameter it fails with
Python's `KeyError` naming the placeholder — not with `ConfigurationError`,
which does not exist in the code. -/
theorem get_url_resolution :
    Garmin.get_url (callStack "get_device_settings")
        (fun k => if k = "device_id" then some "42" else none)
      = Except.ok "/device-service/deviceservice/device-info/settings/42" ∧
    formatTemplate "/x/{a}/{b}"
        (fun k => if k = "a" then some "1" else if k = "b" then some "2" else none)
      = Except.ok "/x/1/2" ∧
    formatTemplate "/x/{a}/{b}" (fun k => if k = "a" then some "1" else none)
      = Except.error (PyFormatError.keyError "b") ∧
    Garmin.get_url (callStack "unknown_key") (fun _ => some "v") = Except.ok "" ∧
    Garmin.get_url (callStack "get_device_settings") (fun _ => none)
      = Except.error (PyFormatError.keyError "device_id") := by
  refine ⟨by rfl, by rfl, by rfl, by rfl, by rfl⟩

/-- Counterexample to claim C3: two invocations of `Garmin.get_url` with
identical explicit arguments (the same `url_params`) resolve to different
URLs because the operation key is taken from the runtime call stack, so
the calling context does influence which URL template is selected. -/
theorem get_url_caller_dependent :
    Garmin.get_url (callStack "get_devices") (fun _ => none)
      ≠ Garmin.get_url (callStack "get_user_profile") (fun _ => none) := by
  intro h
  have h1 : Garmin.get_url (callStack "get_devices") (fun _ => none)
      = Except.ok "/device-service/deviceregistration/devices" := rfl
  have h2 : Garmin.get_url (callStack "get_user_profile") (fun _ => none)
      = Except.ok "/userprofile-service/userprofile/user-settings" := rfl
  rw [h1, h2] at h
  injection h with h3
  exact absurd h3 (by decide)

/-- Claim C3 as amended: endpoint resolution is determined by the calling
context together with the parameters, not by an explicit operation-key
argument: `get_caller_name` recovers the calling method's name from the
stack, that name selects the template, and the same explicit parameters
yield different URLs under different callers. -/
theorem get_url_caller_selected :
    get_caller_name (callStack "get_devices") CallerNameFormat.method 2
      = "get_devices" ∧
    Garmin.get_url (callStack "get_devices") (fun _ => none)
      = Except.ok "/device-service/deviceregistration/devices" ∧
    Garmin.get_url (callStack "get_user_profile") (fun _ => none)
      = Except.ok "/userprofile-service/userprofile/user-settings" := by
  refine ⟨by rfl, by rfl, by rfl⟩

/-! ## File-backed OAuth token store (`repository.py`)

`FileOAuthRepository` keeps two JSON files, `oauth1_token.json` and
`oauth2_token.json`, in its directory.  `set_oauth` handles each provided
token by first calling `os.remove(path)` — which raises
`FileNotFoundError` when the file does not exist — and then opening the
path for writing and dumping the token's fields.  `get_oauth` opens both
files and rebuilds the tokens.  The directory is modelled by the parsed
content of the two files (`none` = file absent); `garth`'s
`asdict`/`json` round trip preserves the token fields, so serialization
is modelled as storing the token value itself.  The token field names
follow §6 of the spec, the `garth` token classes being an external
dependency. -/

/-- Long-lived OAuth1 credential (token / secret / issuing domain). -/
structure OAuth1Token where
  token : String
  secret : String
  domain : String
deriving DecidableEq

/-- Short-lived OAuth2 credential (access / refresh / expiry). -/
structure OAuth2Token where
  access : String
  refresh : String
  expiry : Int
deriving DecidableEq

/-- The repository directory: parsed contents of `oauth1_token.json` and
`oauth2_token.json`, `none` when the file is absent. -/
structure FS where
  oauth1_token_json : Option OAuth1Token
  oauth2_token_json : Option OAuth2Token
deriving DecidableEq

/-- Errors raised by the filesystem calls `set_oauth`/`get_oauth` make:
`os.remove` and `open` raise `FileNotFoundError` on a missing path. -/
inductive FsError
  | fileNotFound
deriving DecidableEq

/-- The individual filesystem operations `set_oauth` performs, in order:
`os.remove(path)` and the `open(path, "w")` + `json.dump` write, for each
of the two token files. -/
inductive FsOp
  | removeOauth1
  | writeOauth1 (t : OAuth1Token)
  | removeOauth2
  | writeOauth2 (t : OAuth2Token)
deriving DecidableEq

/-- Effect of one filesystem operation: removing a missing file raises
`FileNotFoundError`; a write creates or replaces the file. -/
def runOp (fs : FS) : FsOp → Except FsError FS
  | .removeOauth1 =>
      match fs.oauth1_token_json with
      | none => .error .fileNotFound
      | some _ => .ok { fs with oauth1_token_json := none }
  | .writeOauth1 t => .ok { fs with oauth1_token_json := some t }
  | .removeOauth2 =>
      match fs.oauth2_token_json with
      | none => .error .fileNotFound
      | some _ => .ok { fs with oauth2_token_json := none }
  | .writeOauth2 t => .ok { fs with oauth2_token_json := some t }

/-- Run a sequence of filesystem operations, stopping at the first error. -/
def runOps (fs : FS) : List FsOp → Except FsError FS
  | [] => .ok fs
  | op :: rest => (runOp fs op).bind (fun fs1 => runOps fs1 rest)

/-- The operation sequence of `FileOAuthRepository.set_oauth`
(repository.py lines 40-53): for each truthy token argument, remove the
target file, then write the new content.  `none` models passing `None`
(the `if oauth1_token:` guard skips it). -/
def FileOAuthRepository.set_oauth_ops (oauth1_token : Option OAuth1Token)
    (oauth2_token : Option OAuth2Token) : List FsOp :=
  (match oauth1_token with
   | some t => [.removeOauth1, .writeOauth1 t]
   | none => []) ++
  (match oauth2_token with
   | some t => [.removeOauth2, .writeOauth2 t]
   | none => [])

/-- `FileOAuthRepository.set_oauth` run against a directory state. -/
def FileOAuthRepository.set_oauth (oauth1_token : Option OAuth1Token)
    (oauth2_token : Option OAuth2Token) (fs : FS) : Except FsError FS :=
  runOps fs (FileOAuthRepository.set_oauth_ops oauth1_token oauth2_token)

/-- `FileOAuthRepository.get_oauth` (repository.py lines 29-38): open both
token files and rebuild the pair; a missing file raises
`FileNotFoundError`. -/
def FileOAuthRepository.get_oauth (fs : FS) :
    Except FsError (OAuth1Token × OAuth2Token) :=
  match fs.oauth1_token_json with
  | none => .error .fileNotFound
  | some t1 =>
      match fs.oauth2_token_json with
      | none => .error .fileNotFound
      | some t2 => .ok (t1, t2)

/-- Claim C4 evaluated at its failing input: on a fresh token store (the
directory `__init__` just created, no token files — exactly the state in
which `app.init_api` performs its first credential login and then calls
`dumps` to "Save Oauth1 and Oauth2 token files to directory for next
login"), `set_oauth` raises `FileNotFoundError` from the unconditional
`os.remove` before anything is written, so save-then-load cannot return
the pair. -/
theorem set_oauth_fails_on_fresh_store :
    FileOAuthRepository.set_oauth
        (some ⟨"oauth-token", "oauth-secret", "garmin.com"⟩)
        (some ⟨"access-token", "refresh-token", 1700000000⟩)
        ⟨none, none⟩
      = Except.error FsError.fileNotFound ∧
    FileOAuthRepository.get_oauth ⟨none, none⟩
      = Except.error FsError.fileNotFound := by
  exact ⟨rfl, rfl⟩

/-- Counterexample to claim C5: saving over an existing store is not
atomic and not delete-free — after the first operation of the save (the
`os.remove` of `oauth1_token.json`) and before the write that follows,
the persisted token file is missing.  Three of the four operations of the
save are still outstanding at that point. -/
theorem set_oauth_intermediate_missing :
    runOps ⟨some ⟨"old-token", "old-secret", "garmin.com"⟩,
            some ⟨"old-access", "old-refresh", 1600000000⟩⟩
        ((FileOAuthRepository.set_oauth_ops
            (some ⟨"new-token", "new-secret", "garmin.com"⟩)
            (some ⟨"new-access", "new-refresh", 1700000000⟩)).take 1)
      = Except.ok ⟨none, some ⟨"old-access", "old-refresh", 1600000000⟩⟩ ∧
    (FileOAuthRepository.set_oauth_ops
        (some ⟨"new-token", "new-secret", "garmin.com"⟩)
        (some ⟨"new-access", "new-refresh", 1700000000⟩)).length = 4 := by
  exact ⟨rfl, rfl⟩

/-- Claim C5 as amended: `set_oauth` uses delete-then-write, not a
temporary file with an atomic replace.  For any save of both tokens over
a store whose files exist, the operation sequence is exactly
remove-write-remove-write; after the first operation the target file is
missing while the save is not finished; the completed save does end with
both new tokens persisted. -/
theorem set_oauth_delete_then_write (t1 t2 : OAuth1Token)
    (u1 u2 : OAuth2Token)
    (fs : FS) (h1 : fs.oauth1_token_json = some t1)
    (h2 : fs.oauth2_token_json = some u1) :
    FileOAuthRepository.set_oauth_ops (some t2) (some u2)
      = [.removeOauth1, .writeOauth1 t2, .removeOauth2, .writeOauth2 u2] ∧
    runOps fs ((FileOAuthRepository.set_oauth_ops (some t2) (some u2)).take 1)
      = Except.ok { fs with oauth1_token_json := none } ∧
    FileOAuthRepository.set_oauth (some t2) (some u2) fs
      = Except.ok ⟨some t2, some u2⟩ := by
  refine ⟨rfl, ?_, ?_⟩
  · simp [FileOAuthRepository.set_oauth_ops, runOps, runOp, h1, Except.bind]
  · simp [FileOAuthRepository.set_oauth, FileOAuthRepository.set_oauth_ops,
      runOps, runOp, h1, h2, Except.bind]

/-- Witness for the amended C5 at a concrete store and token pair. -/
theorem set_oauth_delete_then_write_witness :
    FileOAuthRepository.set_oauth_ops
        (some ⟨"t2", "s2", "garmin.com"⟩) (some ⟨"a2", "r2", 2⟩)
      = [.removeOauth1, .writeOauth1 ⟨"t2", "s2", "garmin.com"⟩,
         .removeOauth2, .writeOauth2 ⟨"a2", "r2", 2⟩] ∧
    runOps ⟨some ⟨"t1", "s1", "garmin.com"⟩, some ⟨"a1", "r1", 1⟩⟩
        ((FileOAuthRepository.set_oauth_ops
            (some ⟨"t2", "s2", "garmin.com"⟩) (some ⟨"a2", "r2", 2⟩)).take 1)
      = Except.ok ⟨none, some ⟨"a1", "r1", 1⟩⟩ ∧
    FileOAuthRepository.set_oauth
        (some ⟨"t2", "s2", "garmin.com"⟩) (some ⟨"a2", "r2", 2⟩)
        ⟨some ⟨"t1", "s1", "garmin.com"⟩, some ⟨"a1", "r1", 1⟩⟩
      = Except.ok ⟨some ⟨"t2", "s2", "garmin.com"⟩, some ⟨"a2", "r2", 2⟩⟩ :=
  set_oauth_delete_then_write ⟨"t1", "s1", "garmin.com"⟩
    ⟨"t2", "s2", "garmin.com"⟩ ⟨"a1", "r1", 1⟩ ⟨"a2", "r2", 2⟩
    ⟨some ⟨"t1", "s1", "garmin.com"⟩, some ⟨"a1", "r1", 1⟩⟩ rfl rfl

/-! ## `Garmin` session state, `login` and `logout` (`service.py`)

The `Garmin` instance keeps the credentials and the optional injected MFA
provider set by `__init__`, plus the profile snapshot (`display_name`,
`full_name`, `unit_system`) cached on login, and the token pair held by
the `garth` HTTP client.  Calls into the `garth` client are embedded as
data so that what `login` and `logout` actually send can be stated. -/

/-- The injected second-factor provider (`prompt_mfa`): a callback that,
when invoked, yields a code string. -/
def MfaProvider := Unit → String

/-- In-memory state of a `Garmin` instance (service.py lines 27-46 plus
the `garth` client's token pair). -/
structure Garmin where
  username : String
  password : String
  prompt_mfa : Option MfaProvider
  display_name : Option String
  full_name : Option String
  unit_system : Option String
  oauth1_token : Option OAuth1Token
  oauth2_token : Option OAuth2Token

/-- A call made on the `garth` HTTP client, with the arguments the source
passes.  `login` records the positional email/password and which MFA
provider, if any, is forwarded with them. -/
inductive GarthCall
  | login (email password : String) (forwarded_mfa : Option MfaProvider)
  | loads
  | connectapi (url : String)

/-- The MFA provider a `garth` call forwards, if any. -/
def GarthCall.forwardedMfa : GarthCall → Option MfaProvider
  | .login _ _ m => m
  | _ => none

/-- The user-settings URL `login` resolves through `get_url` (the caller
name on the stack is `login`, the template has no placeholder). -/
def login_settings_url : String :=
  ((Garmin.get_url (callStack "login") (fun _ => none)).toOption).getD ""

/-- The sequence of `garth` calls `Garmin.login` issues (service.py lines
110-124): with `use_creds=True` it calls `garth.login(self.username,
self.password)` — forwarding no MFA provider — and otherwise
`garth.loads()`; either way it then requests the user settings through
`connectapi` to cache the profile snapshot. -/
def Garmin.login_calls (g : Garmin) (use_creds : Bool) : List GarthCall :=
  (if use_creds then [.login g.username g.password none] else [.loads]) ++
  [.connectapi login_settings_url]

/-- Claim C6 evaluated at its failing input: however a `Garmin` instance
is constructed — in particular with an injected `prompt_mfa` provider, as
`app.init_api` does for the credential-login path — `Garmin.login` calls
`garth.login` with the username and password only and forwards no MFA
provider, so on a login whose server demands a second factor the injected
provider is invoked zero times, not exactly once. -/
theorem login_drops_mfa_provider (g : Garmin) :
    Garmin.login_calls g true
      = [.login g.username g.password none, .connectapi login_settings_url] ∧
    (Garmin.login_calls g true).all (fun c => c.forwardedMfa.isNone) = true := by
  exact ⟨rfl, rfl⟩

/-- Witness for C6's evaluation at a concrete instance carrying an
injected provider. -/
theorem login_drops_mfa_provider_witness :
    Garmin.login_calls
        ⟨"user@example.com", "hunter2", some (fun _ => "123456"),
         none, none, none, none, none⟩ true
      = [.login "user@example.com" "hunter2" none,
         .connectapi login_settings_url] :=
  (login_drops_mfa_provider
    ⟨"user@example.com", "hunter2", some (fun _ => "123456"),
     none, none, none, none, none⟩).1

/-- `Garmin.logout` (service.py lines 1173-1177): it only logs
`"Deprecated: Alternative is to delete login tokens to logout."` — the
embedding returns the unchanged state, the (empty) list of `garth` calls
issued, and the log line. -/
def Garmin.logout (g : Garmin) : Garmin × List GarthCall × List String :=
  (g, [], ["Deprecated: Alternative is to delete login tokens to logout."])

/-- Counterexample to claim C9: after `logout` on a logged-in instance the
profile snapshot and the cached credential pair are still retained
unchanged — the in-memory session is not destroyed. -/
theorem logout_retains_session :
    ((Garmin.logout
        ⟨"user@example.com", "hunter2", none,
         some "alice", some "Alice Smith", some "metric",
         some ⟨"t", "s", "garmin.com"⟩,
         some ⟨"a", "r", 1⟩⟩).1.display_name = some "alice") ∧
    ((Garmin.logout
        ⟨"user@example.com", "hunter2", none,
         some "alice", some "Alice Smith", some "metric",
         some ⟨"t", "s", "garmin.com"⟩,
         some ⟨"a", "r", 1⟩⟩).1.oauth2_token = some ⟨"a", "r", 1⟩) := by
  exact ⟨rfl, rfl⟩

/-- Claim C9 as amended: `logout` is local-only — it issues no server
request and does not invalidate server-side state — but it does not
destroy the in-memory session either: the instance state (credential pair
and profile snapshot included) is returned unchanged, and the only effect
is a deprecation log line. -/
theorem logout_local_noop (g : Garmin) :
    Garmin.logout g
      = (g, [],
         ["Deprecated: Alternative is to delete login tokens to logout."]) :=
  rfl

/-! ## `get_user_summary` privacy check (`service.py` lines 144-156)

The decoded JSON response is modelled as an association list of fields
with primitive JSON values (the method only inspects one top-level field
and otherwise returns the response unchanged).  Python's
`response["privacyProtected"] is True` is a lookup that raises `KeyError`
on a missing key and an identity test against the `True` singleton. -/

/-- Primitive JSON values as they appear among the inspected fields. -/
inductive JValue
  | null
  | jbool (b : Bool)
  | jstr (s : String)
  | jnum (n : Int)
deriving DecidableEq

/-- A decoded JSON object response. -/
def JObject := List (String × JValue)

/-- Errors `get_user_summary` can raise on a decoded response: the
`GarminConnectAuthenticationError` of the privacy check, or Python's
`KeyError` from the subscript when the field is absent. -/
inductive SummaryError
  | authenticationError
  | pyKeyError (key : String)
deriving DecidableEq

/-- `Garmin.get_user_summary` applied to the decoded JSON response: raise
`GarminConnectAuthenticationError("Authentication error")` when
`response["privacyProtected"] is True`, otherwise return the response
unchanged. -/
def Garmin.get_user_summary (response : JObject) : Except SummaryError JObject :=
  match response.lookup "privacyProtected" with
  | some (.jbool true) => .error .authenticationError
  | some _ => .ok response
  | none => .error (.pyKeyError "privacyProtected")

/-- Claim C8: for every decoded user-summary response carrying the
privacy-protected flag, the operation fails with the authentication error
when the flag is `true`, and returns the decoded response unchanged when
the flag is any value other than `true`. -/
theorem get_user_summary_privacy (response : JObject) (v : JValue)
    (h : response.lookup "privacyProtected" = some v) :
    (v = JValue.jbool true →
      Garmin.get_user_summary response = Except.error SummaryError.authenticationError) ∧
    (v ≠ JValue.jbool true →
      Garmin.get_user_summary response = Except.ok response) := by
  constructor
  · intro hv
    subst hv
    simp [Garmin.get_user_summary, h]
  · intro hv
    unfold Garmin.get_user_summary
    rw [h]
    match v, hv with
    | JValue.null, _ => rfl
    | JValue.jbool false, _ => rfl
    | JValue.jbool true, hv => exact absurd rfl hv
    | JValue.jstr s, _ => rfl
    | JValue.jnum n, _ => rfl

/-- Witness for C8 on concrete responses: a protected response fails with
the authentication error, and a response whose flag is `false` comes back
unchanged. -/
theorem get_user_summary_privacy_witness :
    Garmin.get_user_summary
        [("privacyProtected", JValue.jbool true), ("totalSteps", JValue.jnum 900)]
      = Except.error SummaryError.authenticationError ∧
    Garmin.get_user_summary
        [("privacyProtected", JValue.jbool false), ("totalSteps", JValue.jnum 900)]
      = Except.ok
          [("privacyProtected", JValue.jbool false), ("totalSteps", JValue.jnum 900)] :=
  ⟨(get_user_summary_privacy
      [("privacyProtected", JValue.jbool true), ("totalSteps", JValue.jnum 900)]
      (JValue.jbool true) rfl).1 rfl,
   (get_user_summary_privacy
      [("privacyProtected", JValue.jbool false), ("totalSteps", JValue.jnum 900)]
      (JValue.jbool false) rfl).2 (by decide)⟩

/-! ## Bulk weigh-in deletion (`service.py` lines 306-328)

`delete_weigh_ins` fetches the day's `dateWeightList` and then: returns
`None` when the list is empty; with more than one entry and
`delete_all=False` logs warnings and returns `None`; otherwise issues one
`delete_weigh_in` DELETE request per entry (keyed by its `samplePk`) and
returns `len(weigh_ins)`. -/

/-- One entry of `dateWeightList`; the method only reads its `samplePk`. -/
structure WeighIn where
  samplePk : String
deriving DecidableEq

/-- `Garmin.delete_weigh_ins` applied to the fetched `dateWeightList`:
returns the `samplePk`s for which a DELETE request is issued, in order,
together with the Python return value (`none` for the bare `return`,
`some n` for `return len(weigh_ins)`). -/
def Garmin.delete_weigh_ins (weigh_ins : List WeighIn) (delete_all : Bool) :
    List String × Option Nat :=
  if weigh_ins.isEmpty then ([], none)
  else if 1 < weigh_ins.length ∧ delete_all = false then ([], none)
  else (weigh_ins.map WeighIn.samplePk, some weigh_ins.length)

/-- Counterexample to claim C7: with two weigh-ins stored and
`delete_all=False`, the caller receives `([], none)` — zero deletion
requests and the return value `None`, which is exactly what the
no-weigh-ins case returns, so no distinguishable "multiple found" signal
reaches the caller (the distinction exists only as a log warning). -/
theorem delete_weigh_ins_no_distinct_signal :
    Garmin.delete_weigh_ins [⟨"pk1"⟩, ⟨"pk2"⟩] false = ([], none) ∧
    Garmin.delete_weigh_ins [] false = ([], none) := by
  exact ⟨rfl, rfl⟩

/-- Claim C7 as amended: for a date with more than one stored weigh-in,
`delete_weigh_ins` with `delete_all=False` issues zero deletion requests
and returns `None` — signalling "multiple found" only through a log
warning, not through a value the caller can distinguish from the
no-weigh-ins case — while with `delete_all=True` it issues exactly one
deletion request per stored weigh-in, in order, and returns their
count. -/
theorem delete_weigh_ins_multiple (l : List WeighIn) (h : 1 < l.length) :
    Garmin.delete_weigh_ins l false = ([], none) ∧
    Garmin.delete_weigh_ins l true = (l.map WeighIn.samplePk, some l.length) := by
  have hne : l.isEmpty = false := by
    cases l with
    | nil => simp at h
    | cons a as => rfl
  constructor
  · simp [Garmin.delete_weigh_ins, hne, h]
  · simp [Garmin.delete_weigh_ins, hne]

/-- Witness for the amended C7 at three stored weigh-ins: declining issues
no deletions; `delete_all=True` issues exactly the three deletions. -/
theorem delete_weigh_ins_multiple_witness :
    Garmin.delete_weigh_ins [⟨"a"⟩, ⟨"b"⟩, ⟨"c"⟩] false = ([], none) ∧
    Garmin.delete_weigh_ins [⟨"a"⟩, ⟨"b"⟩, ⟨"c"⟩] true
      = (["a", "b", "c"], some 3) :=
  delete_weigh_ins_multiple [⟨"a"⟩, ⟨"b"⟩, ⟨"c"⟩] (by decide)

/-- Claim C10: on an empty stored weigh-in list `delete_weigh_ins` issues
zero deletion requests and returns `None` whatever `delete_all` is, and
that return value is identical to the one produced when more than one
weigh-in exists and `delete_all` is `False`, so the two outcomes cannot
be told apart from the returned value. -/
theorem delete_weigh_ins_empty_indistinguishable (l : List WeighIn) (b : Bool)
    (h : 1 < l.length) :
    Garmin.delete_weigh_ins [] b = ([], none) ∧
    (Garmin.delete_weigh_ins l false).2 = (Garmin.delete_weigh_ins [] b).2 ∧
    (Garmin.delete_weigh_ins l false).1 = [] := by
  have hne : l.isEmpty = false := by
    cases l with
    | nil => simp at h
    | cons a as => rfl
  refine ⟨rfl, ?_, ?_⟩ <;> simp [Garmin.delete_weigh_ins, hne, h]

/-- Witness for C10 at a concrete two-element list. -/
theorem delete_weigh_ins_empty_indistinguishable_witness :
    Garmin.delete_weigh_ins [] true = ([], none) ∧
    (Garmin.delete_weigh_ins [⟨"x"⟩, ⟨"y"⟩] false).2
      = (Garmin.delete_weigh_ins ([] : List WeighIn) true).2 ∧
    (Garmin.delete_weigh_ins [⟨"x"⟩, ⟨"y"⟩] false).1 = [] :=
  delete_weigh_ins_empty_indistinguishable [⟨"x"⟩, ⟨"y"⟩] true (by decide)

end GarminConnect
